import Mathlib

/-!
Shallow embedding of the connection/authentication subsystem of mcp-cli:
  * `src/utils/oauth-callback.ts` (`waitForOAuthCallback`) — the local OAuth
    callback listener, modelled as a state machine over the events the source
    subscribes to (HTTP requests, the 3-second deferred close, the 5-minute
    timeout timer) plus the server `error` event for which the source registers
    no handler;
  * `src/transports/connection-manager.ts` (`ConnectionManager`) — the
    transport negotiation (`connect`, `attemptStreamableHttpConnection`,
    `attemptSSEConnection`), modelled as a function of an environment that
    fixes the outcome of each external call (URL parse, transport connects,
    `finishAuth`) and of the listener's event trace, returning the result
    together with the observable effects (providers created, connect calls,
    listeners started, `finishAuth` arguments, SSE connect calls) and the
    manager's `oauthProvider` field after the call.

JavaScript `Error` values are modelled by their rendered message strings.
Promise settlement is modelled by an `Option` cell that only the first
`resolve`/`reject` writes, matching ECMAScript promise semantics.
-/

namespace MCPCli

/-! ### Query-string model (`new URL(req.url, 'http://localhost').searchParams.get(k)`)

Percent-decoding is not modelled; all inputs considered here are literal
ASCII without escapes, where WHATWG parsing coincides with this model. -/

/-- Split a character list at the first occurrence of `c`: the part before it,
and `some` remainder after it (`none` when `c` does not occur). -/
def breakAtChar (c : Char) : List Char → List Char × Option (List Char)
  | [] => ([], none)
  | x :: xs =>
    if x == c then ([], some xs)
    else
      let r := breakAtChar c xs
      (x :: r.1, r.2)

/-- Split a character list on every occurrence of `c`. -/
def splitOnChar (c : Char) : List Char → List (List Char)
  | [] => [[]]
  | x :: xs =>
    let r := splitOnChar c xs
    if x == c then [] :: r
    else
      match r with
      | [] => [[x]]
      | g :: gs => (x :: g) :: gs

/-- The query part of a request url: everything after the first question mark,
`none` when there is none (mirrors what `URL.searchParams` is built from). -/
def queryOf (url : String) : Option (List Char) :=
  (breakAtChar '?' url.data).2

/-- First value bound to `key` among `k=v` fragments, mirroring
`URLSearchParams.get`: a fragment without an equals sign binds the empty
string, and only the first equals sign separates key from value. -/
def findParam (key : List Char) : List (List Char) → Option (List Char)
  | [] => none
  | kv :: rest =>
    let p := breakAtChar '=' kv
    if p.1 == key then some (p.2.getD []) else findParam key rest

/-- Model of `new URL(req.url || '', 'http://localhost').searchParams.get(key)`. -/
def getQueryParam (url key : String) : Option String :=
  match queryOf url with
  | none => none
  | some q => (findParam key.data (splitOnChar '&' q)).map fun l => String.mk l

/-- JavaScript truthiness of a `searchParams.get` result: `null` and the empty
string are falsy (`if (code)` in the source). -/
def jsTruthy : Option String → Bool
  | none => false
  | some s => s != ""

/-! ### Callback listener (`waitForOAuthCallback`) -/

/-- Settlement value of the `waitForOAuthCallback` promise: `Except.ok code`
for `resolve(code)`, `Except.error msg` for `reject(new Error(msg))`. -/
abbrev CallbackOutcome := Except String String

deriving instance DecidableEq for Except

/-- State of one `waitForOAuthCallback` call: the promise cell, whether
`server.close()` has run, whether the 3-second deferred close is scheduled,
and the `error` events emitted with no registered listener (the source
installs no `error` handler, so Node raises these as uncaught exceptions). -/
structure ListenerState where
  settled : Option CallbackOutcome
  closed : Bool
  closeScheduled : Bool
  unhandled : List String
deriving DecidableEq, Repr

/-- State right after `createServer` + `server.listen`. -/
def initListener : ListenerState :=
  { settled := none, closed := false, closeScheduled := false, unhandled := [] }

/-- Promise semantics: only the first `resolve`/`reject` writes the cell. -/
def settleWith (s : ListenerState) (o : CallbackOutcome) : ListenerState :=
  if s.settled.isSome then s else { s with settled := some o }

/-- Message of the `reject` in the 5-minute timer of `waitForOAuthCallback`. -/
def timeoutMsg : String := "OAuth callback timeout - no response received within 5 minutes"

/-- The request handler passed to `createServer` in `waitForOAuthCallback`,
returning the successor state and the HTTP status written to the response.
Branches in source order: the `/favicon.ico` early return, then `code`
truthy (200, `resolve(code)`, `setTimeout(() => server.close(), 3000)`),
then `error` truthy (400, reject carrying the error), else 400 and reject. -/
def handleRequest (s : ListenerState) (url : String) : ListenerState × Nat :=
  if url == "/favicon.ico" then (s, 404)
  else if jsTruthy (getQueryParam url "code") then
    ({ settleWith s (.ok ((getQueryParam url "code").getD "")) with
        closeScheduled := true }, 200)
  else if jsTruthy (getQueryParam url "error") then
    (settleWith s
      (.error ("OAuth authorization failed: " ++ (getQueryParam url "error").getD "")), 400)
  else
    (settleWith s (.error "No authorization code provided"), 400)

/-- Events a `waitForOAuthCallback` call can observe: an incoming HTTP
request, the 3-second deferred close firing, the 5-minute timeout firing,
and a server `error` event (e.g. `EADDRINUSE` from `listen`). -/
inductive LEvent where
  | request (url : String)
  | deferredClose
  | timeout
  | bindError (msg : String)
deriving DecidableEq, Repr

/-- One step of the listener. A request reaches the handler only while the
server is open. The deferred close fires only if a `code` branch scheduled
it. The timeout always runs `server.close()` then `reject` (the timer is
never cleared). A server `error` event has no registered handler in the
source, so it touches neither the promise nor the server and is recorded
as uncaught. -/
def stepListener (s : ListenerState) : LEvent → ListenerState
  | .request url => if s.closed then s else (handleRequest s url).1
  | .deferredClose => if s.closeScheduled then { s with closed := true } else s
  | .timeout => settleWith { s with closed := true } (.error timeoutMsg)
  | .bindError m => { s with unhandled := s.unhandled ++ [m] }

/-- Listener state after a trace of events. -/
def runListener (events : List LEvent) : ListenerState :=
  events.foldl stepListener initListener

/-- Final settlement of the `waitForOAuthCallback` promise over a trace
(`none` means the promise never settles). -/
def listenerOutcome (events : List LEvent) : Option CallbackOutcome :=
  (runListener events).settled

/-! ### Connection manager (`ConnectionManager` in `connection-manager.ts`) -/

/-- Substring test, modelling JavaScript `String.prototype.includes`. -/
def leadMatch : List Char → List Char → Bool
  | [], _ => true
  | _ :: _, [] => false
  | a :: as, b :: bs => a == b && leadMatch as bs

/-- Whether `pat` occurs contiguously in `s`. -/
def containsSub (pat : List Char) : List Char → Bool
  | [] => leadMatch pat []
  | c :: rest => leadMatch pat (c :: rest) || containsSub pat rest

/-- Model of `s.includes(pat)` / `String(e).includes(pat)`. -/
def strContains (s pat : String) : Bool :=
  containsSub pat.data s.data

/-- Outcome of the first `client.connect` on the streamable-http transport:
it succeeds, throws `UnauthorizedError`, or throws some other error. -/
inductive PrimaryOutcome where
  | success
  | unauthorized
  | failure (msg : String)
deriving DecidableEq, Repr

/-- Environment fixing each external outcome of one `ConnectionManager.connect`
call: whether `new URL(serverUrl)` succeeds, the first primary connect
outcome, the callback listener's event trace, and the outcomes of
`transport.finishAuth`, the post-authorization retry connect, and the SSE
connect (`none` = resolves, `some m` = rejects with message `m`). -/
structure Env where
  parsesAsURL : Bool
  firstAttempt : PrimaryOutcome
  listenerEvents : List LEvent
  finishAuth : Option String
  retryConnect : Option String
  sseConnect : Option String
deriving Repr

/-- The two transport types of `connection-manager.ts`. -/
inductive TransportType where
  | streamableHttp
  | sse
deriving DecidableEq, Repr

/-- Model of the `ConnectionResult` interface: the transport type that won,
and the `authProvider` the winning transport was built with (`none` for the
SSE transport, which is constructed without one). -/
structure ConnectionResult where
  transportType : TransportType
  usedProvider : Option Nat
deriving DecidableEq, Repr

/-- Result of an attempt or of `connect`: a `ConnectionResult`, a rejection
with a message, or a promise that never settles (the model of awaiting a
callback promise that nothing ever resolves or rejects). -/
inductive Outcome where
  | ok (r : ConnectionResult)
  | err (msg : String)
  | hang
deriving DecidableEq, Repr

/-- Observable effects of one `connect` call: `InMemoryOAuthClientProvider`
constructions, `client.connect` calls on streamable-http transports,
`waitForOAuthCallback` calls, the arguments of `transport.finishAuth` calls
in order, and `client.connect` calls on SSE transports. -/
structure Effects where
  providersCreated : Nat
  primaryConnectCalls : Nat
  listenersStarted : Nat
  finishAuthArgs : List String
  sseConnectCalls : Nat
deriving DecidableEq, Repr

/-- Effects of a `connect` call that performed no external action. -/
def Effects.nil : Effects :=
  { providersCreated := 0, primaryConnectCalls := 0, listenersStarted := 0
    finishAuthArgs := [], sseConnectCalls := 0 }

/-- Model of `ConnectionManager.attemptStreamableHttpConnection`. It first
runs `this.oauthProvider = this.createOAuthProvider()` (the caller records
the field update; `fresh` is the identity of the new provider) and calls
`client.connect` on a transport carrying that provider. On success it
returns the streamable-http result; a non-`UnauthorizedError` rejection is
rethrown; on `UnauthorizedError` it awaits `waitForOAuthCallback`, then
`transport.finishAuth(authCode)`, then retries `client.connect` once on a
fresh transport carrying the same provider. -/
def attemptStreamableHttp (env : Env) (fresh : Nat) : Outcome × Effects :=
  match env.firstAttempt with
  | .success =>
    (.ok { transportType := .streamableHttp, usedProvider := some fresh },
     { providersCreated := 1, primaryConnectCalls := 1, listenersStarted := 0
       finishAuthArgs := [], sseConnectCalls := 0 })
  | .failure m =>
    (.err m,
     { providersCreated := 1, primaryConnectCalls := 1, listenersStarted := 0
       finishAuthArgs := [], sseConnectCalls := 0 })
  | .unauthorized =>
    match listenerOutcome env.listenerEvents with
    | none =>
      (.hang,
       { providersCreated := 1, primaryConnectCalls := 1, listenersStarted := 1
         finishAuthArgs := [], sseConnectCalls := 0 })
    | some (.error m) =>
      (.err m,
       { providersCreated := 1, primaryConnectCalls := 1, listenersStarted := 1
         finishAuthArgs := [], sseConnectCalls := 0 })
    | some (.ok code) =>
      match env.finishAuth with
      | some m =>
        (.err m,
         { providersCreated := 1, primaryConnectCalls := 1, listenersStarted := 1
           finishAuthArgs := [code], sseConnectCalls := 0 })
      | none =>
        match env.retryConnect with
        | some m =>
          (.err m,
           { providersCreated := 1, primaryConnectCalls := 2, listenersStarted := 1
             finishAuthArgs := [code], sseConnectCalls := 0 })
        | none =>
          (.ok { transportType := .streamableHttp, usedProvider := some fresh },
           { providersCreated := 1, primaryConnectCalls := 2, listenersStarted := 1
             finishAuthArgs := [code], sseConnectCalls := 0 })

/-- The error-message rewriting in `attemptSSEConnection`'s catch block. -/
def wrapSSEError (serverUrl m : String) : String :=
  if strContains m "fetch" then
    "Network error connecting to " ++ serverUrl ++ ": " ++ m
  else if strContains m "timeout" then
    "Connection timeout to " ++ serverUrl ++ ". Please check if the server is running."
  else m

/-- Model of `ConnectionManager.attemptSSEConnection`: one `client.connect`
on an `SSEClientTransport` built without an auth provider; a rejection is
rewritten by the catch block. -/
def attemptSSE (env : Env) (serverUrl : String) : Except String ConnectionResult :=
  match env.sseConnect with
  | none => .ok { transportType := .sse, usedProvider := none }
  | some m => .error (wrapSSEError serverUrl m)

/-- The message of the `TypeError` thrown by `new URL(serverUrl)` on a
string that does not parse as an absolute URL. -/
def parseErrorMsg : String := "TypeError: Invalid URL"

/-- The final error built in `connect` when both transports failed: the
primary failure's string is classified by substring, the server URL is
interpolated, and neither underlying error is attached. -/
def classifyFinal (primaryErr serverUrl : String) : String :=
  if strContains primaryErr "ECONNREFUSED" then
    "Cannot connect to server at " ++ serverUrl ++ ". Please ensure the MCP server is running and accessible."
  else if strContains primaryErr "timeout" then
    "Connection timeout to " ++ serverUrl ++ ". The server may be slow to respond or unreachable."
  else
    "Could not connect to server at " ++ serverUrl ++ " with any available transport method."

/-- Bump the SSE connect-call counter of recorded effects. -/
def Effects.withSSE (e : Effects) : Effects :=
  { e with sseConnectCalls := e.sseConnectCalls + 1 }

/-- Model of `ConnectionManager.connect`. `st` is the `oauthProvider` field
before the call and the third component the field after it; `fresh` is the
identity of the provider `createOAuthProvider` would construct. `new
URL(serverUrl)` runs before the try block; the catch around the primary
attempt falls back to SSE, and the catch around the SSE attempt throws the
classified final error, discarding both underlying failures. -/
def connect (st : Option Nat) (env : Env) (serverUrl : String) (fresh : Nat) :
    Outcome × Effects × Option Nat :=
  if env.parsesAsURL then
    let a := attemptStreamableHttp env fresh
    match a.1 with
    | .ok r => (.ok r, a.2, some fresh)
    | .hang => (.hang, a.2, some fresh)
    | .err pm =>
      match attemptSSE env serverUrl with
      | .ok r => (.ok r, a.2.withSSE, some fresh)
      | .error _ => (.err (classifyFinal pm serverUrl), a.2.withSSE, some fresh)
  else
    (.err parseErrorMsg, Effects.nil, st)

/-- Model of `ConnectionManager.getOAuthProvider`. -/
def getOAuthProvider (st : Option Nat) : Option Nat := st

/-! ### Helper lemmas about the listener state machine -/

/-- A settled promise cell is never overwritten by `settleWith`. -/
theorem settleWith_settled (s : ListenerState) (o o' : CallbackOutcome)
    (h : s.settled = some o) : (settleWith s o').settled = some o := by
  simp [settleWith, h]

/-- The request handler never overwrites a settled promise cell. -/
theorem handleRequest_settled (s : ListenerState) (url : String) (o : CallbackOutcome)
    (h : s.settled = some o) : ((handleRequest s url).1).settled = some o := by
  unfold handleRequest
  split
  · exact h
  · split
    · exact settleWith_settled s o _ h
    · split
      · exact settleWith_settled s o _ h
      · exact settleWith_settled s o _ h

/-- No event overwrites a settled promise cell. -/
theorem stepListener_settled (s : ListenerState) (e : LEvent) (o : CallbackOutcome)
    (h : s.settled = some o) : (stepListener s e).settled = some o := by
  cases e with
  | request url =>
    simp only [stepListener]
    split
    · exact h
    · exact handleRequest_settled s url o h
  | deferredClose =>
    simp only [stepListener]
    split
    · exact h
    · exact h
  | timeout =>
    simp only [stepListener]
    exact settleWith_settled { s with closed := true } o _ h
  | bindError m => exact h

/-- A settled promise cell persists through any further event trace. -/
theorem foldl_settled (es : List LEvent) (s : ListenerState) (o : CallbackOutcome)
    (h : s.settled = some o) : (es.foldl stepListener s).settled = some o := by
  induction es generalizing s with
  | nil => exact h
  | cons e rest ih => exact ih _ (stepListener_settled s e o h)

/-- No event reopens a closed server. -/
theorem stepListener_closed (s : ListenerState) (e : LEvent)
    (h : s.closed = true) : (stepListener s e).closed = true := by
  cases e with
  | request url => simp [stepListener, h]
  | deferredClose =>
    simp only [stepListener]
    split
    · rfl
    · exact h
  | timeout =>
    simp only [stepListener, settleWith]
    split <;> rfl
  | bindError m => exact h

/-- A closed server stays closed through any further event trace. -/
theorem foldl_closed (es : List LEvent) (s : ListenerState)
    (h : s.closed = true) : (es.foldl stepListener s).closed = true := by
  induction es generalizing s with
  | nil => exact h
  | cons e rest ih => exact ih _ (stepListener_closed s e h)

/-- A trace with no request and no timeout event never settles the promise. -/
theorem foldl_settled_none (es : List LEvent) (s : ListenerState)
    (hs : s.settled = none)
    (h : ∀ e ∈ es, (∀ url, e ≠ LEvent.request url) ∧ e ≠ LEvent.timeout) :
    (es.foldl stepListener s).settled = none := by
  induction es generalizing s with
  | nil => exact hs
  | cons e rest ih =>
    have he := h e (List.mem_cons_self ..)
    have hstep : (stepListener s e).settled = none := by
      cases e with
      | request url => exact absurd rfl (he.1 url)
      | deferredClose =>
        simp only [stepListener]
        split
        · exact hs
        · exact hs
      | timeout => exact absurd rfl he.2
      | bindError m => exact hs
    exact ih _ hstep fun e' he' => h e' (List.mem_cons_of_mem _ he')

/-! ### Claim theorems -/

/-- C4: the callback listener's completion future settles exactly once per
call: once some prefix of the event trace has settled it, every extension of
the trace yields the same settled outcome (a later request or the later
timeout firing is a no-op), and a closed listener is never reopened by later
events. The model's handler and timers are total functions, so no path
throws, and the single settled value means the awaiting exchange runs at
most once. -/
theorem listener_settles_once (pre suf : List LEvent) (o : CallbackOutcome)
    (h : listenerOutcome pre = some o) :
    listenerOutcome (pre ++ suf) = some o ∧
    ((runListener pre).closed = true → (runListener (pre ++ suf)).closed = true) := by
  unfold listenerOutcome runListener at *
  rw [List.foldl_append]
  exact ⟨foldl_settled suf _ o h, fun hc => foldl_closed suf _ hc⟩

/-- Witness for `listener_settles_once`: a code request followed by the
timeout settles the future with the code; appending a duplicate error
request and a deferred close changes neither the outcome nor closedness. -/
theorem listener_settles_once_w :
    listenerOutcome [LEvent.request "/callback?code=abc", LEvent.timeout] =
      some (.ok "abc") ∧
    (listenerOutcome ([LEvent.request "/callback?code=abc", LEvent.timeout] ++
        [LEvent.request "/callback?error=denied", LEvent.deferredClose]) = some (.ok "abc") ∧
      ((runListener [LEvent.request "/callback?code=abc", LEvent.timeout]).closed = true →
        (runListener ([LEvent.request "/callback?code=abc", LEvent.timeout] ++
          [LEvent.request "/callback?error=denied", LEvent.deferredClose])).closed = true)) :=
  ⟨by decide, listener_settles_once _ _ _ (by decide)⟩

/-- C5 counterexample: the request `/callback?code=` has a `code` parameter
in its query (with empty value), yet the handler responds 400 and rejects
with the no-code failure instead of responding 200 and resolving with the
code — JavaScript truthiness treats the empty value as absent. -/
theorem handler_empty_code_counterexample :
    getQueryParam "/callback?code=" "code" = some "" ∧
    handleRequest initListener "/callback?code=" =
      ({ settled := some (.error "No authorization code provided"), closed := false,
         closeScheduled := false, unhandled := [] }, 400) := by decide

/-- C5 (amended): for a non-favicon request received while the future is
unsettled: a `code` parameter with non-empty value gets a 200 response, the
future resolves with that code and the deferred shutdown is scheduled;
otherwise an `error` parameter with non-empty value gets a 400 response and
the future rejects carrying that error string; otherwise a 400 response and
the future rejects with the no-code failure. -/
theorem handler_dispatch (s : ListenerState) (url : String)
    (hfav : url ≠ "/favicon.ico") (hs : s.settled = none) :
    (∀ c, getQueryParam url "code" = some c → c ≠ "" →
      (handleRequest s url).2 = 200 ∧
      (handleRequest s url).1.settled = some (.ok c) ∧
      (handleRequest s url).1.closeScheduled = true) ∧
    (∀ e, jsTruthy (getQueryParam url "code") = false →
      getQueryParam url "error" = some e → e ≠ "" →
      (handleRequest s url).2 = 400 ∧
      (handleRequest s url).1.settled =
        some (.error ("OAuth authorization failed: " ++ e))) ∧
    (jsTruthy (getQueryParam url "code") = false →
      jsTruthy (getQueryParam url "error") = false →
      (handleRequest s url).2 = 400 ∧
      (handleRequest s url).1.settled =
        some (.error "No authorization code provided")) := by
  have hfavb : (url == "/favicon.ico") = false := by
    simpa using hfav
  refine ⟨?_, ?_, ?_⟩
  · intro c hc hne
    have ht : jsTruthy (some c) = true := by simp [jsTruthy, hne]
    simp [handleRequest, hfavb, hc, ht, settleWith, hs]
  · intro e hcf he hne
    have ht : jsTruthy (some e) = true := by simp [jsTruthy, hne]
    simp [handleRequest, hfavb, hcf, he, ht, settleWith, hs]
  · intro hcf hef
    simp [handleRequest, hfavb, hcf, hef, settleWith, hs]

/-- Witness for `handler_dispatch` at the request `/callback?code=abc` from
the fresh listener state. -/
theorem handler_dispatch_w :
    ("/callback?code=abc" ≠ "/favicon.ico") ∧ initListener.settled = none ∧
    ((handleRequest initListener "/callback?code=abc").2 = 200 ∧
     (handleRequest initListener "/callback?code=abc").1.settled = some (.ok "abc") ∧
     (handleRequest initListener "/callback?code=abc").1.closeScheduled = true) :=
  ⟨by decide, rfl,
    (handler_dispatch initListener "/callback?code=abc" (by decide) rfl).1 "abc"
      (by decide) (by decide)⟩

/-- C9 counterexample: a request whose path is not the redirect path but
whose query carries a code receives a 200 response, not a 400 response —
the handler never inspects the path. -/
theorem handler_path_counterexample :
    (handleRequest initListener "/definitely-not-the-redirect-path?code=abc").2 = 200 := by
  decide

/-- C9 (amended): a `/favicon.ico` request receives 404 and leaves the
listener state unchanged; every other request is handled by its query string
alone — two non-favicon requests with the same query are treated
identically regardless of path — and its response status is 200 exactly when
the query has a code parameter with non-empty value, 400 otherwise. -/
theorem favicon_and_query_dispatch (s : ListenerState) (u v : String)
    (hu : u ≠ "/favicon.ico") (hv : v ≠ "/favicon.ico")
    (hq : queryOf u = queryOf v) :
    handleRequest s "/favicon.ico" = (s, 404) ∧
    handleRequest s u = handleRequest s v ∧
    (handleRequest s u).2 =
      (if jsTruthy (getQueryParam u "code") then 200 else 400) := by
  have hub : (u == "/favicon.ico") = false := by simpa using hu
  have hvb : (v == "/favicon.ico") = false := by simpa using hv
  have hparam : ∀ k, getQueryParam u k = getQueryParam v k := by
    intro k
    unfold getQueryParam
    rw [hq]
  refine ⟨by simp [handleRequest], ?_, ?_⟩
  · simp only [handleRequest, hub, hvb, Bool.false_eq_true, if_false, hparam]
  · by_cases hcode : jsTruthy (getQueryParam u "code") = true
    · simp [handleRequest, hub, hcode]
    · by_cases herr : jsTruthy (getQueryParam u "error") = true
      · simp [handleRequest, hub, hcode, herr]
      · simp [handleRequest, hub, hcode, herr]

/-- Witness for `favicon_and_query_dispatch`: two different non-favicon
paths with the same code query are handled identically and get 200. -/
theorem favicon_and_query_dispatch_w :
    ("/callback?code=abc" ≠ "/favicon.ico") ∧ ("/other?code=abc" ≠ "/favicon.ico") ∧
    queryOf "/callback?code=abc" = queryOf "/other?code=abc" ∧
    (handleRequest initListener "/favicon.ico" = (initListener, 404) ∧
     handleRequest initListener "/callback?code=abc" =
       handleRequest initListener "/other?code=abc" ∧
     (handleRequest initListener "/callback?code=abc").2 =
       (if jsTruthy (getQueryParam "/callback?code=abc" "code") then 200 else 400)) :=
  ⟨by decide, by decide, by decide,
    favicon_and_query_dispatch initListener _ _ (by decide) (by decide) (by decide)⟩

/-- C3: if the first primary-transport connect succeeds (no authorization
challenge), connect returns a result whose transport type is
streamable-http and no callback listener is ever started in that call. -/
theorem connect_primary_success (st : Option Nat) (env : Env) (u : String) (fresh : Nat)
    (hp : env.parsesAsURL = true) (hs : env.firstAttempt = .success) :
    (connect st env u fresh).1 =
      .ok { transportType := .streamableHttp, usedProvider := some fresh } ∧
    (connect st env u fresh).2.1.listenersStarted = 0 := by
  simp [connect, hp, attemptStreamableHttp, hs]

/-- Witness for `connect_primary_success` at a run whose primary connect
succeeds immediately. -/
theorem connect_primary_success_w :
    ((⟨true, .success, [], Option.none, Option.none, Option.none⟩ : Env).parsesAsURL = true) ∧
    ((connect Option.none ⟨true, .success, [], Option.none, Option.none, Option.none⟩
        "http://x" 7).1 =
      .ok { transportType := .streamableHttp, usedProvider := some 7 } ∧
     (connect Option.none ⟨true, .success, [], Option.none, Option.none, Option.none⟩
        "http://x" 7).2.1.listenersStarted = 0) :=
  ⟨rfl, connect_primary_success Option.none _ "http://x" 7 rfl rfl⟩

/-- C2: when the primary attempt fails with the unauthorized signal, exactly
one callback listener is started; if the listener yields a code, finishAuth
runs exactly once with exactly that code; if the exchange succeeds, the
primary transport is retried exactly once (two primary connect calls in
total) and a successful retry returns the streamable-http result built on
the provider created for this call; if the retry fails, the SSE transport
is attempted. -/
theorem connect_unauthorized_once (st : Option Nat) (env : Env) (u : String) (fresh : Nat)
    (hp : env.parsesAsURL = true) (hun : env.firstAttempt = .unauthorized) :
    (connect st env u fresh).2.1.listenersStarted = 1 ∧
    (∀ c, listenerOutcome env.listenerEvents = some (.ok c) →
      (connect st env u fresh).2.1.finishAuthArgs = [c] ∧
      (env.finishAuth = none →
        (connect st env u fresh).2.1.primaryConnectCalls = 2 ∧
        (env.retryConnect = none →
          (connect st env u fresh).1 =
            .ok { transportType := .streamableHttp, usedProvider := some fresh }) ∧
        (∀ m, env.retryConnect = some m →
          (connect st env u fresh).2.1.sseConnectCalls = 1))) := by
  rcases hlo : listenerOutcome env.listenerEvents with _ | o
  · constructor
    · simp [connect, hp, attemptStreamableHttp, hun, hlo]
    · intro c hc
      cases hc
  · rcases o with m | c
    · constructor
      · rcases hsse : env.sseConnect with _ | sm <;>
          simp [connect, hp, attemptStreamableHttp, attemptSSE, hun, hlo, hsse,
            Effects.withSSE]
      · intro c hc
        cases hc
    · rcases hfa : env.finishAuth with _ | fm
      · rcases hrc : env.retryConnect with _ | rm
        · refine ⟨?_, ?_⟩
          · simp [connect, hp, attemptStreamableHttp, hun, hlo, hfa, hrc]
          · intro c hc
            injection hc with hc'
            injection hc' with hc''
            subst hc''
            refine ⟨?_, ?_⟩
            · simp [connect, hp, attemptStreamableHttp, hun, hlo, hfa, hrc]
            · intro _
              refine ⟨?_, ?_, ?_⟩
              · simp [connect, hp, attemptStreamableHttp, hun, hlo, hfa, hrc]
              · intro _
                simp [connect, hp, attemptStreamableHttp, hun, hlo, hfa, hrc]
              · intro m hm
                cases hm
        · refine ⟨?_, ?_⟩
          · rcases hsse : env.sseConnect with _ | sm <;>
              simp [connect, hp, attemptStreamableHttp, attemptSSE, hun, hlo, hfa, hrc,
                hsse, Effects.withSSE]
          · intro c hc
            injection hc with hc'
            injection hc' with hc''
            subst hc''
            refine ⟨?_, ?_⟩
            · rcases hsse : env.sseConnect with _ | sm <;>
                simp [connect, hp, attemptStreamableHttp, attemptSSE, hun, hlo, hfa, hrc,
                  hsse, Effects.withSSE]
            · intro _
              refine ⟨?_, ?_, ?_⟩
              · rcases hsse : env.sseConnect with _ | sm <;>
                  simp [connect, hp, attemptStreamableHttp, attemptSSE, hun, hlo, hfa,
                    hrc, hsse, Effects.withSSE]
              · intro hrc'
                cases hrc'
              · intro m _
                rcases hsse : env.sseConnect with _ | sm <;>
                  simp [connect, hp, attemptStreamableHttp, attemptSSE, hun, hlo, hfa,
                    hrc, hsse, Effects.withSSE]
      · refine ⟨?_, ?_⟩
        · rcases hsse : env.sseConnect with _ | sm <;>
            simp [connect, hp, attemptStreamableHttp, attemptSSE, hun, hlo, hfa, hsse,
              Effects.withSSE]
        · intro c hc
          injection hc with hc'
          injection hc' with hc''
          subst hc''
          refine ⟨?_, ?_⟩
          · rcases hsse : env.sseConnect with _ | sm <;>
              simp [connect, hp, attemptStreamableHttp, attemptSSE, hun, hlo, hfa, hsse,
                Effects.withSSE]
          · intro hfa'
            cases hfa'

/-- Environment of the witness for `connect_unauthorized_once`: the primary
attempt is unauthorized, the listener receives a code request, finishAuth
succeeds, the authorized retry fails, and the SSE fallback succeeds. -/
def envRetryFails : Env :=
  ⟨true, .unauthorized, [.request "/callback?code=abc"], Option.none,
    some "Error: retry boom", Option.none⟩

/-- Witness for `connect_unauthorized_once` on `envRetryFails`. -/
theorem connect_unauthorized_once_w :
    envRetryFails.parsesAsURL = true ∧
    envRetryFails.firstAttempt = .unauthorized ∧
    listenerOutcome envRetryFails.listenerEvents = some (.ok "abc") ∧
    ((connect Option.none envRetryFails "http://x" 3).2.1.listenersStarted = 1 ∧
     (connect Option.none envRetryFails "http://x" 3).2.1.finishAuthArgs = ["abc"] ∧
     (connect Option.none envRetryFails "http://x" 3).2.1.primaryConnectCalls = 2 ∧
     (connect Option.none envRetryFails "http://x" 3).2.1.sseConnectCalls = 1) := by
  have h := connect_unauthorized_once Option.none envRetryFails "http://x" 3 rfl rfl
  have h2 := h.2 "abc" (by decide)
  have h3 := h2.2 rfl
  exact ⟨rfl, rfl, by decide, h.1, h2.1, h3.1, h3.2.2 "Error: retry boom" rfl⟩

/-- C1 counterexample: with the primary transport failing with message
"Error: primary boom" and the SSE transport failing with "Error: sse boom",
connect rejects with the single generic final message, which contains
neither underlying failure — both causes are discarded. -/
theorem connect_bothfail_counterexample :
    (connect Option.none
        ⟨true, .failure "Error: primary boom", [], Option.none, Option.none,
          some "Error: sse boom"⟩ "http://x" 0).1 =
      .err "Could not connect to server at http://x with any available transport method." ∧
    strContains
      "Could not connect to server at http://x with any available transport method."
      "primary boom" = false ∧
    strContains
      "Could not connect to server at http://x with any available transport method."
      "sse boom" = false := by decide

/-- C1 (amended): when the primary attempt fails and the SSE attempt also
fails, connect rejects with the single classified message built only from
the primary failure's string and the server URL; the rejection carries
neither underlying failure (the secondary failure is only logged). -/
theorem connect_bothfail_classified (st : Option Nat) (env : Env) (u : String)
    (fresh : Nat) (pm sm : String)
    (hp : env.parsesAsURL = true)
    (hfail : (attemptStreamableHttp env fresh).1 = .err pm)
    (hsse : env.sseConnect = some sm) :
    (connect st env u fresh).1 = .err (classifyFinal pm u) := by
  simp [connect, hp, hfail, attemptSSE, hsse]

/-- Witness for `connect_bothfail_classified`. -/
theorem connect_bothfail_classified_w :
    ((⟨true, .failure "Error: primary boom", [], Option.none, Option.none,
        some "Error: sse boom"⟩ : Env).parsesAsURL = true) ∧
    (attemptStreamableHttp
        ⟨true, .failure "Error: primary boom", [], Option.none, Option.none,
          some "Error: sse boom"⟩ 0).1 = .err "Error: primary boom" ∧
    (connect Option.none
        ⟨true, .failure "Error: primary boom", [], Option.none, Option.none,
          some "Error: sse boom"⟩ "http://x" 0).1 =
      .err (classifyFinal "Error: primary boom" "http://x") :=
  ⟨rfl, rfl,
    connect_bothfail_classified Option.none _ "http://x" 0 "Error: primary boom"
      "Error: sse boom" rfl rfl rfl⟩

/-- C6: if the listener's trace delivers no request before the 5-minute
timeout fires, the future rejects with the timeout failure, the server is
closed, and the surrounding connect call never invokes finishAuth. -/
theorem timeout_closes_and_no_exchange (st : Option Nat) (env : Env) (u : String)
    (fresh : Nat) (pre rest : List LEvent)
    (hp : env.parsesAsURL = true) (hun : env.firstAttempt = .unauthorized)
    (hev : env.listenerEvents = pre ++ LEvent.timeout :: rest)
    (hpre : ∀ e ∈ pre, (∀ url, e ≠ LEvent.request url) ∧ e ≠ LEvent.timeout) :
    listenerOutcome env.listenerEvents = some (.error timeoutMsg) ∧
    (runListener env.listenerEvents).closed = true ∧
    (connect st env u fresh).2.1.finishAuthArgs = [] := by
  have h1 : (List.foldl stepListener initListener pre).settled = none :=
    foldl_settled_none pre initListener rfl hpre
  have h2 : (stepListener (List.foldl stepListener initListener pre) .timeout).settled =
      some (.error timeoutMsg) := by
    simp [stepListener, settleWith, h1]
  have h2c : (stepListener (List.foldl stepListener initListener pre) .timeout).closed =
      true := by
    simp [stepListener, settleWith]
    split <;> rfl
  have houtcome : listenerOutcome env.listenerEvents = some (.error timeoutMsg) := by
    unfold listenerOutcome runListener
    rw [hev, List.foldl_append, List.foldl_cons]
    exact foldl_settled rest _ _ h2
  have hclosed : (runListener env.listenerEvents).closed = true := by
    unfold runListener
    rw [hev, List.foldl_append, List.foldl_cons]
    exact foldl_closed rest _ h2c
  refine ⟨houtcome, hclosed, ?_⟩
  rcases hsse : env.sseConnect with _ | sm <;>
    simp [connect, hp, attemptStreamableHttp, attemptSSE, hun, houtcome, hsse,
      Effects.withSSE]

/-- Witness for `timeout_closes_and_no_exchange`: the trace consisting of the
timeout alone. -/
theorem timeout_closes_and_no_exchange_w :
    ((⟨true, .unauthorized, [LEvent.timeout], Option.none, Option.none,
        Option.none⟩ : Env).parsesAsURL = true) ∧
    (listenerOutcome [LEvent.timeout] = some (.error timeoutMsg) ∧
     (runListener [LEvent.timeout]).closed = true ∧
     (connect Option.none
        ⟨true, .unauthorized, [LEvent.timeout], Option.none, Option.none, Option.none⟩
        "http://x" 0).2.1.finishAuthArgs = []) :=
  ⟨rfl,
    timeout_closes_and_no_exchange Option.none
      ⟨true, .unauthorized, [LEvent.timeout], Option.none, Option.none, Option.none⟩
      "http://x" 0 [] [] rfl rfl rfl (by simp)⟩

/-- C7 counterexample: a connect call whose primary attempt succeeds without
any authorization challenge still creates an OAuth provider (eagerly, before
connecting), and the provider is stored in the manager's `oauthProvider`
field where it remains reachable through `getOAuthProvider` after the call
returns — it is neither lazy nor confined to the call. -/
theorem provider_eager_counterexample :
    (connect Option.none ⟨true, .success, [], Option.none, Option.none, Option.none⟩
        "http://x" 5).2.1.providersCreated = 1 ∧
    getOAuthProvider
      (connect Option.none ⟨true, .success, [], Option.none, Option.none, Option.none⟩
        "http://x" 5).2.2 = some 5 := by decide

/-- C7 (amended): the callback listener is created lazily — exactly when the
primary attempt fails unauthorized — but the OAuth provider is created
eagerly on every primary attempt, before any challenge is seen, and is
stored in the manager's `oauthProvider` field, which still holds it after
connect returns. -/
theorem provider_eager_listener_lazy (st : Option Nat) (env : Env) (u : String)
    (fresh : Nat) (hp : env.parsesAsURL = true) :
    (connect st env u fresh).2.1.providersCreated = 1 ∧
    getOAuthProvider (connect st env u fresh).2.2 = some fresh ∧
    (connect st env u fresh).2.1.listenersStarted =
      (if env.firstAttempt = .unauthorized then 1 else 0) := by
  rcases hun : env.firstAttempt with _ | _ | fm
  · simp [connect, hp, attemptStreamableHttp, hun, getOAuthProvider]
  · rcases hlo : listenerOutcome env.listenerEvents with _ | o
    · simp [connect, hp, attemptStreamableHttp, hun, hlo, getOAuthProvider]
    · rcases o with m | c
      · rcases hsse : env.sseConnect with _ | sm <;>
          simp [connect, hp, attemptStreamableHttp, attemptSSE, hun, hlo, hsse,
            Effects.withSSE, getOAuthProvider]
      · rcases hfa : env.finishAuth with _ | fam
        · rcases hrc : env.retryConnect with _ | rm
          · simp [connect, hp, attemptStreamableHttp, hun, hlo, hfa, hrc,
              getOAuthProvider]
          · rcases hsse : env.sseConnect with _ | sm <;>
              simp [connect, hp, attemptStreamableHttp, attemptSSE, hun, hlo, hfa, hrc,
                hsse, Effects.withSSE, getOAuthProvider]
        · rcases hsse : env.sseConnect with _ | sm <;>
            simp [connect, hp, attemptStreamableHttp, attemptSSE, hun, hlo, hfa, hsse,
              Effects.withSSE, getOAuthProvider]
  · rcases hsse : env.sseConnect with _ | sm <;>
      simp [connect, hp, attemptStreamableHttp, attemptSSE, hun, hsse, Effects.withSSE,
        getOAuthProvider]

/-- Witness for `provider_eager_listener_lazy` at a run whose primary
attempt fails unauthorized and times out. -/
theorem provider_eager_listener_lazy_w :
    ((⟨true, .unauthorized, [LEvent.timeout], Option.none, Option.none,
        Option.none⟩ : Env).parsesAsURL = true) ∧
    ((connect Option.none
        ⟨true, .unauthorized, [LEvent.timeout], Option.none, Option.none, Option.none⟩
        "http://x" 4).2.1.providersCreated = 1 ∧
     getOAuthProvider
       (connect Option.none
         ⟨true, .unauthorized, [LEvent.timeout], Option.none, Option.none, Option.none⟩
         "http://x" 4).2.2 = some 4 ∧
     (connect Option.none
        ⟨true, .unauthorized, [LEvent.timeout], Option.none, Option.none, Option.none⟩
        "http://x" 4).2.1.listenersStarted =
       (if (⟨true, .unauthorized, [LEvent.timeout], Option.none, Option.none,
            Option.none⟩ : Env).firstAttempt = .unauthorized then 1 else 0)) :=
  ⟨rfl, provider_eager_listener_lazy Option.none _ "http://x" 4 rfl⟩

/-- C8 counterexample: with the callback port in use — the server emits a
listen `EADDRINUSE` error event and no request ever arrives — the error is
recorded as uncaught, the callback promise never settles, connect hangs, and
the secondary transport is never attempted: the bind failure is not
surfaced as an authorization failure of the flow. -/
theorem bind_error_counterexample :
    listenerOutcome [LEvent.bindError "Error: listen EADDRINUSE"] = none ∧
    (runListener [LEvent.bindError "Error: listen EADDRINUSE"]).unhandled =
      ["Error: listen EADDRINUSE"] ∧
    (connect Option.none
        ⟨true, .unauthorized, [LEvent.bindError "Error: listen EADDRINUSE"], Option.none,
          Option.none, Option.none⟩ "http://x" 0).1 = .hang ∧
    (connect Option.none
        ⟨true, .unauthorized, [LEvent.bindError "Error: listen EADDRINUSE"], Option.none,
          Option.none, Option.none⟩ "http://x" 0).2.1.sseConnectCalls = 0 := by decide

/-- C8 (amended): `waitForOAuthCallback` registers no handler for the server
`error` event, so a bind failure never settles the callback promise — it is
recorded as an uncaught exception — and a connect call whose callback
promise never settles hangs without ever reaching the SSE fallback. -/
theorem bind_error_uncaught (st : Option Nat) (env : Env) (u : String) (fresh : Nat)
    (s : ListenerState) (m : String)
    (hp : env.parsesAsURL = true) (hun : env.firstAttempt = .unauthorized)
    (hno : listenerOutcome env.listenerEvents = none) :
    (stepListener s (.bindError m)).settled = s.settled ∧
    (stepListener s (.bindError m)).unhandled = s.unhandled ++ [m] ∧
    (connect st env u fresh).1 = .hang ∧
    (connect st env u fresh).2.1.sseConnectCalls = 0 := by
  refine ⟨rfl, rfl, ?_, ?_⟩ <;>
    simp [connect, hp, attemptStreamableHttp, hun, hno]

/-- Witness for `bind_error_uncaught` at the trace of a single bind error. -/
theorem bind_error_uncaught_w :
    ((⟨true, .unauthorized, [LEvent.bindError "Error: listen EADDRINUSE"], Option.none,
        Option.none, Option.none⟩ : Env).parsesAsURL = true) ∧
    listenerOutcome [LEvent.bindError "Error: listen EADDRINUSE"] = none ∧
    ((stepListener initListener (.bindError "Error: listen EADDRINUSE")).settled =
        initListener.settled ∧
     (stepListener initListener (.bindError "Error: listen EADDRINUSE")).unhandled =
        initListener.unhandled ++ ["Error: listen EADDRINUSE"] ∧
     (connect Option.none
        ⟨true, .unauthorized, [LEvent.bindError "Error: listen EADDRINUSE"], Option.none,
          Option.none, Option.none⟩ "http://x" 0).1 = .hang ∧
     (connect Option.none
        ⟨true, .unauthorized, [LEvent.bindError "Error: listen EADDRINUSE"], Option.none,
          Option.none, Option.none⟩ "http://x" 0).2.1.sseConnectCalls = 0) :=
  ⟨rfl, by decide,
    bind_error_uncaught Option.none _ "http://x" 0 initListener
      "Error: listen EADDRINUSE" rfl rfl (by decide)⟩

/-- C10: a server URL that does not parse as an absolute URL makes connect
fail with the URL parse error before anything else happens: no provider is
created, no transport connect call is made, no listener is started, no
exchange occurs, and the manager field is untouched. -/
theorem connect_invalid_url (st : Option Nat) (env : Env) (u : String) (fresh : Nat)
    (hp : env.parsesAsURL = false) :
    connect st env u fresh = (.err parseErrorMsg, Effects.nil, st) := by
  simp [connect, hp]

/-- Witness for `connect_invalid_url`. -/
theorem connect_invalid_url_w :
    ((⟨false, .success, [], Option.none, Option.none, Option.none⟩ : Env).parsesAsURL
      = false) ∧
    connect (some 9) ⟨false, .success, [], Option.none, Option.none, Option.none⟩
      "not a url" 0 = (.err parseErrorMsg, Effects.nil, some 9) :=
  ⟨rfl, connect_invalid_url (some 9) _ "not a url" 0 rfl⟩

end MCPCli
